import Mathlib

/-!
Shallow embedding of `appscale/tools/admin_api/version.py` (Admin API Version
resource translators).  Python values appearing in parsed YAML documents are
modelled by the inductive `YVal`; parsed XML trees by `XmlElem`; Python 2
exceptions by `PyExc`.  Each translator from the source file becomes an
executable Lean function returning `Except PyExc Version`, written to follow
the source line by line (line references are to version.py).
-/

/-- Python 2 exceptions relevant to this module.  `StandardError` (the class
caught by the bare `except StandardError` clauses) covers the built-in errors
`typeError`, `valueError`, `keyError`, `attributeError` but not the
application's own `AppEngineConfigException`, which in the repository derives
from `Exception` directly. -/
inductive PyExc where
  | appEngineConfig : String → PyExc
  | typeError : PyExc
  | valueError : PyExc
  | keyError : PyExc
  | attributeError : PyExc
deriving DecidableEq, Repr

/-- Values produced by `yaml.safe_load`: Python `None`, booleans, integers,
strings, lists and string-keyed dictionaries. -/
inductive YVal where
  | null : YVal
  | bool : Bool → YVal
  | int : Int → YVal
  | str : String → YVal
  | list : List YVal → YVal
  | dict : List (String × YVal) → YVal

/-- Python truthiness (`bool(x)`) for the modelled values. -/
def YVal.truthy : YVal → Bool
  | .null => false
  | .bool b => b
  | .int n => n != 0
  | .str s => s != ""
  | .list l => !l.isEmpty
  | .dict d => !d.isEmpty

/-- Python `==` comparison of a value against a string literal (comparisons
across unrelated types yield `False`). -/
def YVal.pyEqStr : YVal → String → Bool
  | .str t, s => t == s
  | _, _ => false

/-- Python subscripting `x[key]` with a string key: dictionary lookup raising
`KeyError` when absent, `TypeError` on any non-dictionary value. -/
def YVal.subscript : YVal → String → Except PyExc YVal
  | .dict d, k =>
    match d.find? (fun p => p.1 == k) with
    | some p => .ok p.2
    | none => .error .keyError
  | _, _ => .error .typeError

/-- Python `x.get(key, default)`: only dictionaries have `.get`; any other
receiver raises `AttributeError`. -/
def YVal.pyGet : YVal → String → YVal → Except PyExc YVal
  | .dict d, k, dflt => .ok (((d.find? (fun p => p.1 == k)).map Prod.snd).getD dflt)
  | _, _, _ => .error .attributeError

/-- Python `key in x` for a string key: key test on dictionaries, substring
test on strings, membership on lists, `TypeError` otherwise. -/
def YVal.pyContains : YVal → String → Except PyExc Bool
  | .dict d, k => .ok (d.any (fun p => p.1 == k))
  | .str t, k => .ok ((t.splitOn k).length != 1)
  | .list l, k => .ok (l.any (fun v => v.pyEqStr k))
  | _, _ => .error .typeError

/-- Python iteration `for x in v`: lists yield elements, strings yield their
characters, dictionaries yield their keys; other values raise `TypeError`. -/
def YVal.pyIter : YVal → Except PyExc (List YVal)
  | .list l => .ok l
  | .str s => .ok (s.toList.map (fun c => .str ⟨[c]⟩))
  | .dict d => .ok (d.map (fun p => .str p.1))
  | _ => .error .typeError

/-- Python `str.format` / `str()` rendering of the modelled scalars (only ever
reached on strings in the translated code paths). -/
def YVal.formatStr : YVal → String
  | .str s => s
  | .null => "None"
  | .bool b => if b then "True" else "False"
  | .int n => toString n
  | _ => ""

/-- ASCII whitespace stripping used by Python `int(str)`. -/
def dropWS (cs : List Char) : List Char :=
  cs.dropWhile (fun c => c == ' ' || c == '\t' || c == '\n' || c == '\r')

/-- Reads a non-empty all-digit character list as a natural number. -/
def digitsToNat : List Char → Option Nat
  | [] => none
  | cs =>
    cs.foldl
      (fun acc c =>
        match acc with
        | none => none
        | some n => if c.isDigit then some (n * 10 + (c.toNat - 48)) else none)
      (some 0)

/-- Python 2 `int(s)` on a string: optional surrounding whitespace, optional
sign, then base-10 digits; anything else raises `ValueError` (modelled as
`none`). -/
def pyIntOfString (s : String) : Option Int :=
  let t := (dropWS ((dropWS s.toList).reverse)).reverse
  match t with
  | '-' :: rest => (digitsToNat rest).map (fun n => -(n : Int))
  | '+' :: rest => (digitsToNat rest).map (fun n => (n : Int))
  | cs => (digitsToNat cs).map (fun n => (n : Int))

/-- Python 2 `int(v)`: integers pass through, booleans coerce to 0/1, strings
are parsed (`ValueError` on failure), everything else raises `TypeError`. -/
def pyInt : YVal → Except PyExc Int
  | .bool b => .ok (if b then 1 else 0)
  | .int n => .ok n
  | .str s =>
    match pyIntOfString s with
    | some n => .ok n
    | none => .error .valueError
  | _ => .error .typeError

/-- Opaque handler descriptor. -/
structure Handler where
  raw : YVal

/-- Modelled from the spec: the Handler-parsing collaborator
(`appscale.tools.admin_api.handler`, not under src/) turns each entry of the
`handlers` sequence into an opaque handler descriptor; validation of handler
route syntax is delegated to it and out of scope here (spec section 1
non-goals, section 3 `handlers`). -/
def Handler.fromYaml (h : YVal) : Handler := ⟨h⟩

/-- Modelled from the spec: the well-known default service identifier
(`DEFAULT_SERVICE` from `appscale.tools.admin_api.client`, not under src/;
spec section 3 `serviceId`). -/
def DEFAULT_SERVICE : String := "default"

/-- The required pair inside `automaticScaling` (`standardSchedulerSettings`
dictionary built on version.py lines 100-103 / 197-199). -/
structure StandardSchedulerSettings where
  minInstances : Int
  maxInstances : Int
deriving DecidableEq, Repr

/-- The canonical `automaticScaling` value: required scheduler settings plus
the three optional idle/concurrency bounds stored as sibling keys. -/
structure AutomaticScaling where
  standardSchedulerSettings : StandardSchedulerSettings
  minIdleInstances : Option Int := none
  maxIdleInstances : Option Int := none
  maxConcurrentRequests : Option Int := none
deriving DecidableEq, Repr

/-- The canonical `manualScaling` value (`{'instances': int}`). -/
structure ManualScaling where
  instances : Int
deriving DecidableEq, Repr

/-- The Version resource (version.py lines 20-49).  Fields that the source
initialises to `None` / `{}` / `[]` carry the matching defaults. -/
structure Version where
  runtime : YVal
  config_type : String
  project_id : YVal := YVal.null
  service_id : YVal := YVal.null
  id : Option String := none
  env_variables : YVal := YVal.dict []
  inbound_services : YVal := YVal.list []
  threadsafe : Option Bool := none
  handlers : Option (List Handler) := none
  manual_scaling : Option ManualScaling := none
  automatic_scaling : Option AutomaticScaling := none
  serving_status : Option String := none

/-- `Version.__init__` (lines 22-49): the legacy runtime identifier
`'java7'` is rewritten to `'java'` before being stored. -/
def Version.create (runtime : YVal) (config_type : String) : Version :=
  let runtime := if runtime.pyEqStr "java7" then YVal.str "java" else runtime
  { runtime := runtime, config_type := config_type }

/-- Propagation helper for `try/except KeyError` blocks (lines 62-70,
124-129): a `KeyError` becomes an `AppEngineConfigException` with the given
message; every other outcome passes through. -/
def catchKeyError (x : Except PyExc α) (msg : String) : Except PyExc α :=
  match x with
  | .error .keyError => .error (.appEngineConfig msg)
  | other => other

/-- Propagation helper for `try/except StandardError` blocks (lines 93-97,
98-105, 189-194, 195-201): any built-in error becomes an
`AppEngineConfigException` with the given message. -/
def catchStandard (x : Except PyExc α) (msg : String) : Except PyExc α :=
  match x with
  | .error (.appEngineConfig m) => .error (.appEngineConfig m)
  | .error _ => .error (.appEngineConfig msg)
  | other => other

/-- Propagation helper for `try/except ValueError` blocks (lines 108-121,
204-217): only a `ValueError` is converted; in particular a `TypeError`
escapes unchanged. -/
def catchValueError (x : Except PyExc α) (msg : String) : Except PyExc α :=
  match x with
  | .error .valueError => .error (.appEngineConfig msg)
  | other => other

/-- Python `a or b` (used for the service id default chain on lines 81-82):
the first operand if truthy, otherwise the second. -/
def pyOr (a b : YVal) : YVal := if a.truthy then a else b

/-- `Version.from_yaml`, lines 62-85: required `runtime` and `handlers` keys,
handler delegation, `application`, the service/module conflict and default,
and the `env_variables` / `inbound_services` copies. -/
def yamlPrelude (app_yaml : YVal) : Except PyExc Version := do
  let runtime ← catchKeyError (app_yaml.subscript "runtime")
    "Missing app.yaml element: runtime"
  let handlers ← catchKeyError (app_yaml.subscript "handlers")
    "Missing app.yaml element: handlers"
  let version := Version.create runtime "app.yaml"
  let projectId ← app_yaml.pyGet "application" YVal.null
  let handlerList ← handlers.pyIter
  let version := { version with
    project_id := projectId
    handlers := some (handlerList.map Handler.fromYaml) }
  let hasService ← app_yaml.pyContains "service"
  let hasModule ← app_yaml.pyContains "module"
  if hasService && hasModule then
    throw (PyExc.appEngineConfig
      "Invalid app.yaml: If \"service\" is defined, \"module\" cannot be defined.")
  else do
    let sv ← app_yaml.pyGet "service" YVal.null
    let mv ← app_yaml.pyGet "module" YVal.null
    let version := { version with
      service_id := pyOr (pyOr sv mv) (YVal.str DEFAULT_SERVICE) }
    let env ← app_yaml.pyGet "env_variables" (YVal.dict [])
    let inb ← app_yaml.pyGet "inbound_services" (YVal.list [])
    pure { version with env_variables := env, inbound_services := inb }

/-- `int(manual_scaling['instances'])` (line 95). -/
def manualScalingY (manual_scaling : YVal) : Except PyExc Int := do
  let iv ← manual_scaling.subscript "instances"
  pyInt iv

/-- The required automatic-scaling pair (lines 100-103):
`int(automatic_scaling['min_instances'])` then
`int(automatic_scaling['max_instances'])`, in dictionary-literal order. -/
def autoScalingRequiredY (automatic_scaling : YVal) :
    Except PyExc StandardSchedulerSettings := do
  let mnv ← automatic_scaling.subscript "min_instances"
  let mn ← pyInt mnv
  let mxv ← automatic_scaling.subscript "max_instances"
  let mx ← pyInt mxv
  pure { minInstances := mn, maxInstances := mx }

/-- The optional automatic-scaling fields (lines 107-121): each of the three
keys is read with `.get`, coerced with `int` when not `None`, under a single
`except ValueError` clause. -/
def autoOptionalY (automatic_scaling : YVal) (a : AutomaticScaling) :
    Except PyExc AutomaticScaling :=
  catchValueError
    (do
      let min_idle ← automatic_scaling.pyGet "min_idle_instances" YVal.null
      let a ← match min_idle with
        | .null => pure a
        | v => do
          let n ← pyInt v
          pure { a with minIdleInstances := some n }
      let max_idle ← automatic_scaling.pyGet "max_idle_instances" YVal.null
      let a ← match max_idle with
        | .null => pure a
        | v => do
          let n ← pyInt v
          pure { a with maxIdleInstances := some n }
      let max_concurrent ← automatic_scaling.pyGet "max_concurrent_requests" YVal.null
      match max_concurrent with
        | .null => pure a
        | v => do
          let n ← pyInt v
          pure { a with maxConcurrentRequests := some n })
    "Invalid app.yaml: value for automatic scaling option is not integer."

/-- `Version.from_yaml`, lines 87-121: the scaling section.  Both blocks
truthy is a conflict; a truthy manual block is coerced under
`except StandardError`; a truthy automatic block is coerced likewise and then
extended with the optional fields. -/
def yamlScaling (app_yaml : YVal) (version : Version) : Except PyExc Version := do
  let automatic_scaling ← app_yaml.pyGet "automatic_scaling" YVal.null
  let manual_scaling ← app_yaml.pyGet "manual_scaling" YVal.null
  if automatic_scaling.truthy && manual_scaling.truthy then
    throw (PyExc.appEngineConfig
      "Invalid app.yaml: If \"automatic_scaling\" is defined, \"manual_scaling\" cannot be defined.")
  else if manual_scaling.truthy then do
    let n ← catchStandard (manualScalingY manual_scaling)
      "Invalid app.yaml: manual_scaling invalid."
    pure { version with manual_scaling := some { instances := n } }
  else if automatic_scaling.truthy then do
    let ss ← catchStandard (autoScalingRequiredY automatic_scaling)
      "Invalid app.yaml: automatic_scaling invalid."
    let a ← autoOptionalY automatic_scaling { standardSchedulerSettings := ss }
    pure { version with automatic_scaling := some a }
  else
    pure version

/-- `Version.from_yaml`, lines 123-135: for the runtimes `'python27'` and
`'java'` (after legacy rewriting) the `threadsafe` key is required and must be
a boolean literal. -/
def yamlThreadsafe (app_yaml : YVal) (version : Version) : Except PyExc Version := do
  if version.runtime.pyEqStr "python27" || version.runtime.pyEqStr "java" then do
    let ts ← catchKeyError (app_yaml.subscript "threadsafe")
      ("Invalid app.yaml: " ++ version.runtime.formatStr ++
        " applications require the \"threadsafe\" element")
    match ts with
    | .bool b => pure { version with threadsafe := some b }
    | _ => throw (PyExc.appEngineConfig
        "Invalid app.yaml: \"threadsafe\" must be a boolean")
  else
    pure version

/-- `Version.from_yaml` (lines 51-135), assembled from its three sections. -/
def fromYaml (app_yaml : YVal) : Except PyExc Version := do
  let version ← yamlPrelude app_yaml
  let version ← yamlScaling app_yaml version
  yamlThreadsafe app_yaml version

/-- ASCII case lowering of one character, as Python `str.lower` performs on
ASCII text. -/
def asciiLowerChar (c : Char) : Char :=
  if c.toNat ≥ 65 && c.toNat ≤ 90 then Char.ofNat (c.toNat + 32) else c

/-- Python `str.lower()` (the text handled by this module is ASCII). -/
def pyLower (s : String) : String := ⟨s.toList.map asciiLowerChar⟩

/-- A parsed XML element as produced by `xml.etree.ElementTree`: tag,
attributes, direct children and text. -/
inductive XmlElem where
  | mk : String → List (String × String) → List XmlElem → Option String → XmlElem

/-- The element's tag. -/
def XmlElem.tag : XmlElem → String
  | .mk t _ _ _ => t

/-- The element's attribute dictionary. -/
def XmlElem.attrib : XmlElem → List (String × String)
  | .mk _ a _ _ => a

/-- The element's direct children. -/
def XmlElem.children : XmlElem → List XmlElem
  | .mk _ _ c _ => c

/-- The element's text (`None` when the element is empty). -/
def XmlElem.text : XmlElem → Option String
  | .mk _ _ _ tx => tx

/-- The namespace that appengine-web.xml uses (version.py line 17). -/
def XML_NAMESPACE : String := "\x7bhttp://appengine.google.com/ns/1.0\x7d"

/-- `qname` (line 146): joins the namespace and the local element name. -/
def qname (name : String) : String := XML_NAMESPACE ++ name

/-- `Element.find`: the first direct child with the given tag, if any. -/
def XmlElem.find (e : XmlElem) (tag : String) : Option XmlElem :=
  e.children.find? (fun c => c.tag == tag)

/-- `Element.findtext`: the text of the first matching direct child (the
empty string when that child has no text), `None` when there is no match. -/
def XmlElem.findtext (e : XmlElem) (tag : String) : Option String :=
  (e.find tag).map (fun c => c.text.getD "")

/-- Python 2 `int(x)` applied to the result of `findtext`: `int(None)` raises
`TypeError`, a string is parsed with `ValueError` on failure. -/
def pyIntOfTextOpt : Option String → Except PyExc Int
  | none => .error .typeError
  | some s =>
    match pyIntOfString s with
    | some n => .ok n
    | none => .error .valueError

/-- Python 2 `int(x)` applied to an `ElementTree` Element object (lines 207,
210): an Element defines no integer conversion, so this always raises
`TypeError`. -/
def pyIntOfElement (_e : XmlElem) : Except PyExc Int := .error .typeError

/-- Python 2 `int(x)` applied to `root.find(...)`'s raw result (line 214,
where `max_concurrent` is an Element or `None`): both raise `TypeError`. -/
def pyIntOfOptElement (_e : Option XmlElem) : Except PyExc Int := .error .typeError

/-- `var.attrib['name']` style lookup: `KeyError` when the attribute is
absent. -/
def XmlElem.attribGet (e : XmlElem) (k : String) : Except PyExc String :=
  match e.attrib.find? (fun p => p.1 == k) with
  | some p => .ok p.2
  | none => .error .keyError

/-- Insertion into a Python dictionary: an existing key keeps its position and
takes the new value. -/
def assocSet (d : List (String × YVal)) (k : String) (v : YVal) :
    List (String × YVal) :=
  match d with
  | [] => [(k, v)]
  | (k0, v0) :: rest => if k0 == k then (k, v) :: rest else (k0, v0) :: assocSet rest k v

/-- The dictionary comprehension on lines 176-177: one entry per child of
`env-variables`, keyed by the `name` attribute with the `value` attribute as
value (`KeyError` when either attribute is missing). -/
def xmlEnvVars (e : XmlElem) : Except PyExc (List (String × YVal)) :=
  e.children.foldlM
    (fun acc var => do
      let n ← var.attribGet "name"
      let v ← var.attribGet "value"
      pure (assocSet acc n (.str v)))
    []

/-- `Element.text` as the Python value it is in the source (`None` or a
string). -/
def optTextToYVal : Option String → YVal
  | some s => .str s
  | none => .null

/-- `version.automatic_scaling['minIdleInstances'] = v` (line 207): a
subscript assignment on `None` raises `TypeError`. -/
def setMinIdle (version : Version) (v : Int) : Except PyExc Version :=
  match version.automatic_scaling with
  | none => .error .typeError
  | some a => .ok { version with automatic_scaling := some { a with minIdleInstances := some v } }

/-- `version.automatic_scaling['maxIdleInstances'] = v` (line 210). -/
def setMaxIdle (version : Version) (v : Int) : Except PyExc Version :=
  match version.automatic_scaling with
  | none => .error .typeError
  | some a => .ok { version with automatic_scaling := some { a with maxIdleInstances := some v } }

/-- `version.automatic_scaling['maxConcurrentRequests'] = v` (lines 213-214,
an assignment continued across the line break). -/
def setMaxConcurrent (version : Version) (v : Int) : Except PyExc Version :=
  match version.automatic_scaling with
  | none => .error .typeError
  | some a => .ok { version with automatic_scaling := some { a with maxConcurrentRequests := some v } }

/-- Lines 174-177: when an `env-variables` element is present its children
are read into the environment dictionary. -/
def xmlEnvStep (root : XmlElem) (version : Version) : Except PyExc Version :=
  match root.find (qname "env-variables") with
  | some e => do
    let env ← xmlEnvVars e
    pure { version with env_variables := YVal.dict env }
  | none => pure version

/-- `Version.from_xml`, lines 146-181: default runtime `'java7'` when the
`runtime` element is absent, `application`, the service/module conflict and
default, environment variables and inbound services. -/
def xmlPrelude (root : XmlElem) : Except PyExc Version := do
  let runtime_element ← pure (root.find (qname "runtime"))
  let runtime ← pure (match runtime_element with
    | some e => optTextToYVal e.text
    | none => YVal.str "java7")
  let version ← pure (Version.create runtime "appengine-web.xml")
  let version ← pure (match root.find (qname "application") with
    | some e => { version with project_id := optTextToYVal e.text }
    | none => version)
  let service_element ← pure (root.find (qname "service"))
  let module_element ← pure (root.find (qname "module"))
  if service_element.isSome && module_element.isSome then
    throw (PyExc.appEngineConfig
      "Invalid appengine-web.xml: If \"service\" is defined, \"module\" cannot be defined.")
  else do
    let version ← pure (match module_element with
      | some e => { version with service_id := optTextToYVal e.text }
      | none => version)
    let version ← pure (match service_element with
      | some e => { version with service_id := optTextToYVal e.text }
      | none => version)
    let version ← pure (if !version.service_id.truthy then
        { version with service_id := YVal.str DEFAULT_SERVICE }
      else version)
    let version ← xmlEnvStep root version
    let version ← pure (match root.find (qname "inbound-services") with
      | some e =>
        { version with inbound_services := YVal.list (e.children.map (fun s => optTextToYVal s.text)) }
      | none => version)
    pure version

/-- `Version.from_xml`, lines 183-201: the scaling elements.  Both present is
a conflict; a present manual element has `int(findtext('instances'))` under
`except StandardError`; a present automatic element has both required bounds
coerced likewise. -/
def xmlScaling (root : XmlElem) (version : Version) : Except PyExc Version := do
  let automatic_scaling ← pure (root.find (qname "automatic-scaling"))
  let manual_scaling ← pure (root.find (qname "manual-scaling"))
  if automatic_scaling.isSome && manual_scaling.isSome then
    throw (PyExc.appEngineConfig
      "Invalid appengine-web.xml: If \"automatic-scaling\" is defined, \"manual-scaling\" cannot be defined.")
  else
    match manual_scaling with
    | some ms => do
      let n ← catchStandard (pyIntOfTextOpt (ms.findtext (qname "instances")))
        "Invalid app.yaml: manual_scaling invalid."
      pure { version with manual_scaling := some { instances := n } }
    | none =>
      match automatic_scaling with
      | some asc => do
        let ss ← catchStandard
          (do
            let mn ← pyIntOfTextOpt (asc.findtext (qname "min-instances"))
            let mx ← pyIntOfTextOpt (asc.findtext (qname "max-instances"))
            pure { minInstances := mn, maxInstances := mx : StandardSchedulerSettings })
          "Invalid app.yaml: automatic_scaling invalid."
        pure { version with automatic_scaling := some { standardSchedulerSettings := ss } }
      | none => pure version

/-- Lines 205-207: `if min_idle is not None:` followed by the
`minIdleInstances` assignment whose right-hand side is `int(min_idle)` on the
Element object itself. -/
def xmlMinIdleStep (min_idle : Option XmlElem) (version : Version) :
    Except PyExc Version :=
  match min_idle with
  | some e => do
    let v ← pyIntOfElement e
    setMinIdle version v
  | none => pure version

/-- Lines 208-210: the corresponding `maxIdleInstances` step. -/
def xmlMaxIdleStep (max_idle : Option XmlElem) (version : Version) :
    Except PyExc Version :=
  match max_idle with
  | some e => do
    let v ← pyIntOfElement e
    setMaxIdle version v
  | none => pure version

/-- `Version.from_xml`, lines 203-217: the optional automatic-scaling
elements, looked up at the document root and passed to `int()` as Element
objects, guarded by a single `except ValueError` clause; the
`max-concurrent-requests` assignment is guarded by `max_idle is not None`
exactly as on line 212. -/
def xmlScalingOptional (root : XmlElem) (version : Version) : Except PyExc Version :=
  catchValueError
    (do
      let min_idle ← pure (root.find (qname "min-idle-instances"))
      let version ← xmlMinIdleStep min_idle version
      let max_idle ← pure (root.find (qname "max-idle-instances"))
      let version ← xmlMaxIdleStep max_idle version
      let max_concurrent ← pure (root.find (qname "max-concurrent-requests"))
      if max_idle.isSome then do
        let v ← pyIntOfOptElement max_concurrent
        setMaxConcurrent version v
      else
        pure version)
    "Invalid appengine-web.xml: value for automatic scaling option is not integer."

/-- Lines 219-222: look up the mandatory `threadsafe` element. -/
def xmlThreadsafeElement (root : XmlElem) : Except PyExc XmlElem :=
  match root.find (qname "threadsafe") with
  | none => throw (PyExc.appEngineConfig
      "Invalid appengine-web.xml: missing \"threadsafe\" element")
  | some e => pure e

/-- `threadsafe_element.text.lower()` (lines 224, 229): `AttributeError` when
the element has no text. -/
def xmlThreadsafeText (threadsafe_element : XmlElem) : Except PyExc String :=
  match threadsafe_element.text with
  | none => throw PyExc.attributeError
  | some s => pure (pyLower s)

/-- `Version.from_xml`, lines 219-229: the mandatory `threadsafe` element;
`.text.lower()` raises `AttributeError` on an empty element, and the lowered
text must be `'true'` or `'false'`. -/
def xmlThreadsafe (root : XmlElem) (version : Version) : Except PyExc Version := do
  let threadsafe_element ← xmlThreadsafeElement root
  let t ← xmlThreadsafeText threadsafe_element
  if t == "true" || t == "false" then
    pure { version with threadsafe := some (t == "true") }
  else
    throw (PyExc.appEngineConfig
      "Invalid appengine-web.xml: Invalid \"threadsafe\" value. It must be either \"true\" or \"false\".")

/-- `Version.from_xml`, lines 146-217 (everything before the `threadsafe`
check). -/
def fromXmlCore (root : XmlElem) : Except PyExc Version := do
  let version ← xmlPrelude root
  let version ← xmlScaling root version
  xmlScalingOptional root version

/-- `Version.from_xml` (lines 137-231), assembled from its sections. -/
def fromXml (root : XmlElem) : Except PyExc Version := do
  let version ← fromXmlCore root
  xmlThreadsafe root version

/-- The third-party document parsers (`yaml.safe_load` and
`ElementTree.fromstring`) used by `Version.from_contents`; they are external
libraries, so the entry points are parametrised over them.  A failure carries
the parser's message, as `yaml.YAMLError` / `ElementTree.ParseError` do. -/
structure ExternalParsers where
  safe_load : String → Except String YVal
  fromstring : String → Except String XmlElem

/-- `Version.from_contents` (lines 296-323): dispatch on the file name,
wrapping a parser failure in an `AppEngineConfigException`. -/
def from_contents (P : ExternalParsers) (contents : String) (file_name : String) :
    Except PyExc Version :=
  if file_name == "app.yaml" then
    match P.safe_load contents with
    | .error e => .error (.appEngineConfig ("Invalid app.yaml: " ++ e))
    | .ok app_yaml => fromYaml app_yaml
  else
    match P.fromstring contents with
    | .error e => .error (.appEngineConfig ("Invalid appengine-web.xml: " ++ e))
    | .ok appengine_web_xml => fromXml appengine_web_xml

/-- Splitting a character list on a separator (each separator occurrence
starts a new segment). -/
def splitOnChar (c : Char) : List Char → List (List Char)
  | [] => [[]]
  | x :: rest =>
    if x == c then [] :: splitOnChar c rest
    else
      match splitOnChar c rest with
      | [] => [[x]]
      | h :: t => (x :: h) :: t

/-- The path segments of an archive member name. -/
def pathSegments (p : String) : List String :=
  (splitOnChar '/' p.toList).map (fun cs => ⟨cs⟩)

/-- Keeps the shallower of the best candidate so far and a new one, keeping
the earlier one on ties (strict comparison). -/
def shallowestPick : Option String → String → Option String
  | none, n => some n
  | some b, n =>
    if (pathSegments n).length < (pathSegments b).length then some n else some b

/-- Whether a candidate path's final segment equals the target file name. -/
def nameMatches (file_name n : String) : Bool :=
  (pathSegments n).getLast? == some file_name

/-- Modelled from the spec: `shortest_path_from_list` from
`appscale.tools.utils` is not under src/.  Spec section 4.1 (PathLocator):
among the candidate paths whose final segment equals the target file name,
select the one with the fewest path segments, preferring the first candidate
encountered at minimal depth, scanning in input order; `none` when no
candidate matches. -/
def shortest_path_from_list (file_name : String) (name_list : List String) :
    Option String :=
  (name_list.filter (nameMatches file_name)).foldl shallowestPick none

/-- `tar.extractfile(config_location).read()` / `zip_file.open(...).read()`
over an archive modelled as a list of (member name, member bytes) pairs. -/
def extractMember (members : List (String × String)) (loc : String) : String :=
  ((members.find? (fun m => m.1 == loc)).map Prod.snd).getD ""

/-- `Version.from_tar_gz` (lines 325-354) over the member list of the
tarball: search the member names for `app.yaml`, then for
`appengine-web.xml`, and dispatch the matched member's contents to
`from_contents` tagged with the file name that matched. -/
def from_tar_gz (P : ExternalParsers) (members : List (String × String)) :
    Except PyExc Version :=
  let name_list := members.map Prod.fst
  match shortest_path_from_list "app.yaml" name_list with
  | some config_location => from_contents P (extractMember members config_location) "app.yaml"
  | none =>
    match shortest_path_from_list "appengine-web.xml" name_list with
    | some config_location =>
      from_contents P (extractMember members config_location) "appengine-web.xml"
    | none => .error (.appEngineConfig "Unable to find app.yaml or appengine-web.xml")

/-- `Version.from_zip` (lines 356-382) over the entry list of the zip file;
the algorithm is the same as for the tarball. -/
def from_zip (P : ExternalParsers) (members : List (String × String)) :
    Except PyExc Version :=
  let name_list := members.map Prod.fst
  match shortest_path_from_list "app.yaml" name_list with
  | some config_location => from_contents P (extractMember members config_location) "app.yaml"
  | none =>
    match shortest_path_from_list "appengine-web.xml" name_list with
    | some config_location =>
      from_contents P (extractMember members config_location) "appengine-web.xml"
    | none => .error (.appEngineConfig "Unable to find app.yaml or appengine-web.xml")

/-- The spec's single error taxonomy (section 7). -/
inductive ErrorVariant where
  | missingField
  | conflictingFields
  | invalidConfig
  | configNotFound
  | unreadableSource
deriving DecidableEq, Repr

/-- Whether `pat` leads (as a literal) the character list `s`. -/
def leadsWith : List Char → List Char → Bool
  | [], _ => true
  | _ :: _, [] => false
  | p :: ps, c :: cs => p == c && leadsWith ps cs

/-- Whether `pat` occurs as a contiguous run inside `s`. -/
def occursIn (pat : List Char) : List Char → Bool
  | [] => leadsWith pat []
  | c :: rest => leadsWith pat (c :: rest) || occursIn pat rest

/-- Literal substring test on strings. -/
def strOccurs (pat s : String) : Bool := occursIn pat.toList s.toList

/-- Modelled from the spec: the error-variant taxonomy of section 7 is not
reified in the code (every failure is one `AppEngineConfigException` class
from `appscale.tools.custom_exceptions`, not under src/); a message is
classified by what it reports: a required key or element that is absent is
`MissingField`, two mutually exclusive inputs both present is
`ConflictingFields`, nothing found in an archive or directory is
`ConfigNotFound`, an unreadable source is `UnreadableSource`, and a present
but malformed value is `InvalidConfig`. -/
def classify (msg : String) : ErrorVariant :=
  if strOccurs "Missing app.yaml element" msg then .missingField
  else if strOccurs "missing \"threadsafe\" element" msg then .missingField
  else if strOccurs "applications require the \"threadsafe\" element" msg then .missingField
  else if strOccurs "cannot be defined" msg then .conflictingFields
  else if msg == "Unable to find app.yaml or appengine-web.xml" then .configNotFound
  else if strOccurs "Unable to read" msg then .unreadableSource
  else .invalidConfig

/-- Destructuring a successful `Except` bind: the first action succeeded and
its continuation succeeded. -/
theorem bind_eq_ok {α β : Type} {e : Except PyExc α} {f : α → Except PyExc β}
    {b : β} (h : (e >>= f) = .ok b) : ∃ a, e = .ok a ∧ f a = .ok b := by
  cases e with
  | error err => exact absurd h (by simp [Bind.bind, Except.bind])
  | ok a => exact ⟨a, rfl, h⟩

/-- Injectivity of `Except.ok` at the result type used here. -/
theorem except_ok_inj {α : Type} {a b : α}
    (h : (Except.ok a : Except PyExc α) = Except.ok b) : a = b := by
  injection h

/-- An `Except` `throw` never equals a success. -/
theorem throw_ne_ok {α : Type} {e : PyExc} {b : α} :
    (throw e : Except PyExc α) ≠ .ok b := by
  intro h
  exact Except.noConfusion h

/-- After `yamlPrelude` both scaling fields are still unset, the handlers
field is set, and the runtime is the one stored by `Version.create`. -/
theorem yamlPrelude_ok {y : YVal} {v : Version} (h : yamlPrelude y = .ok v) :
    v.manual_scaling = none ∧ v.automatic_scaling = none ∧ v.handlers ≠ none := by
  unfold yamlPrelude at h
  obtain ⟨runtime, hr, h⟩ := bind_eq_ok h
  obtain ⟨handlers, hh, h⟩ := bind_eq_ok h
  obtain ⟨projectId, hp, h⟩ := bind_eq_ok h
  obtain ⟨handlerList, hl, h⟩ := bind_eq_ok h
  obtain ⟨hasService, hs, h⟩ := bind_eq_ok h
  obtain ⟨hasModule, hm, h⟩ := bind_eq_ok h
  split at h
  · exact absurd h throw_ne_ok
  · obtain ⟨sv, hsv, h⟩ := bind_eq_ok h
    obtain ⟨mv, hmv, h⟩ := bind_eq_ok h
    obtain ⟨env, he, h⟩ := bind_eq_ok h
    obtain ⟨inb, hi, h⟩ := bind_eq_ok h
    have h2 := except_ok_inj h
    subst h2
    exact ⟨rfl, rfl, by simp⟩

/-- A successful `catchValueError` means the guarded action itself
succeeded. -/
theorem catchValueError_ok {α : Type} {x : Except PyExc α} {m : String} {a : α}
    (h : catchValueError x m = .ok a) : x = .ok a := by
  unfold catchValueError at h
  split at h
  · exact absurd h (by simp)
  · exact h

/-- A successful `catchStandard` means the guarded action itself
succeeded. -/
theorem catchStandard_ok {α : Type} {x : Except PyExc α} {m : String} {a : α}
    (h : catchStandard x m = .ok a) : x = .ok a := by
  unfold catchStandard at h
  split at h
  · exact absurd h (by simp)
  · exact absurd h (by simp)
  · exact h

/-- A successful `catchKeyError` means the guarded action itself
succeeded. -/
theorem catchKeyError_ok {α : Type} {x : Except PyExc α} {m : String} {a : α}
    (h : catchKeyError x m = .ok a) : x = .ok a := by
  unfold catchKeyError at h
  split at h
  · exact absurd h (by simp)
  · exact h

/-- Any failure of the guarded action other than an already-typed
`AppEngineConfigException` is converted by `catchStandard` into the given
message. -/
theorem catchStandard_err {α : Type} {x : Except PyExc α} {e : PyExc}
    (m : String) (hx : x = .error e) (hne : ∀ s, e ≠ PyExc.appEngineConfig s) :
    catchStandard x m = .error (.appEngineConfig m) := by
  subst hx
  unfold catchStandard
  cases e with
  | appEngineConfig s => exact absurd rfl (hne s)
  | typeError => rfl
  | valueError => rfl
  | keyError => rfl
  | attributeError => rfl

/-- Destructuring a failed `Except` bind: either the first action failed with
that error, or it succeeded and the continuation failed. -/
theorem bind_eq_error {α β : Type} {e : Except PyExc α} {f : α → Except PyExc β}
    {err : PyExc} (h : (e >>= f) = .error err) :
    e = .error err ∨ ∃ a, e = .ok a ∧ f a = .error err := by
  cases e with
  | error e0 =>
    left
    have : e0 = err := by
      have h2 : (Except.error e0 : Except PyExc β) = .error err := h
      injection h2
    rw [this]
  | ok a => exact Or.inr ⟨a, rfl, h⟩

/-- `int()` never raises the application's own exception. -/
theorem pyInt_no_CE {v : YVal} {e : PyExc} (h : pyInt v = .error e) :
    ∀ s, e ≠ PyExc.appEngineConfig s := by
  intro s hs
  subst hs
  cases v <;> simp [pyInt] at h
  case str s2 =>
    rcases hp : pyIntOfString s2 with _ | n <;> rw [hp] at h <;> simp at h

/-- Subscripting never raises the application's own exception. -/
theorem subscript_no_CE {v : YVal} {k : String} {e : PyExc}
    (h : v.subscript k = .error e) : ∀ s, e ≠ PyExc.appEngineConfig s := by
  intro s hs
  subst hs
  cases v <;> simp [YVal.subscript] at h
  case dict d =>
    rcases hf : d.find? (fun p => p.1 == k) with _ | p <;> rw [hf] at h <;> simp at h

/-- The manual-scaling coercion can only fail with a built-in error, never
with an `AppEngineConfigException` of its own. -/
theorem manualScalingY_no_CE {ms : YVal} {e : PyExc}
    (h : manualScalingY ms = .error e) : ∀ s, e ≠ PyExc.appEngineConfig s := by
  unfold manualScalingY at h
  rcases bind_eq_error h with h1 | ⟨a, ha, h1⟩
  · exact subscript_no_CE h1
  · exact pyInt_no_CE h1

/-- The required automatic-scaling coercion can only fail with a built-in
error. -/
theorem autoScalingRequiredY_no_CE {a : YVal} {e : PyExc}
    (h : autoScalingRequiredY a = .error e) : ∀ s, e ≠ PyExc.appEngineConfig s := by
  unfold autoScalingRequiredY at h
  rcases bind_eq_error h with h1 | ⟨x1, hx1, h⟩
  · exact subscript_no_CE h1
  rcases bind_eq_error h with h1 | ⟨x2, hx2, h⟩
  · exact pyInt_no_CE h1
  rcases bind_eq_error h with h1 | ⟨x3, hx3, h⟩
  · exact subscript_no_CE h1
  rcases bind_eq_error h with h1 | ⟨x4, hx4, h⟩
  · exact pyInt_no_CE h1
  exact Except.noConfusion h

/-- `yamlScaling` never changes the runtime, threadsafe or handlers fields. -/
theorem yamlScaling_preserves {y : YVal} {v0 v1 : Version}
    (h : yamlScaling y v0 = .ok v1) :
    v1.runtime = v0.runtime ∧ v1.threadsafe = v0.threadsafe ∧
      v1.handlers = v0.handlers := by
  unfold yamlScaling at h
  obtain ⟨autoY, ha, h⟩ := bind_eq_ok h
  obtain ⟨manY, hm, h⟩ := bind_eq_ok h
  split at h
  · exact absurd h throw_ne_ok
  · split at h
    · obtain ⟨n, hn, h⟩ := bind_eq_ok h
      have h2 := except_ok_inj h
      subst h2
      exact ⟨rfl, rfl, rfl⟩
    · split at h
      · obtain ⟨ss, hss, h⟩ := bind_eq_ok h
        obtain ⟨a, haa, h⟩ := bind_eq_ok h
        have h2 := except_ok_inj h
        subst h2
        exact ⟨rfl, rfl, rfl⟩
      · have h2 := except_ok_inj h
        subst h2
        exact ⟨rfl, rfl, rfl⟩

/-- Starting from a version with both scaling fields unset, `yamlScaling`
sets at most one of them. -/
theorem yamlScaling_exclusive {y : YVal} {v0 v1 : Version}
    (hm0 : v0.manual_scaling = none) (ha0 : v0.automatic_scaling = none)
    (h : yamlScaling y v0 = .ok v1) :
    v1.manual_scaling = none ∨ v1.automatic_scaling = none := by
  unfold yamlScaling at h
  obtain ⟨autoY, ha, h⟩ := bind_eq_ok h
  obtain ⟨manY, hmv, h⟩ := bind_eq_ok h
  split at h
  · exact absurd h throw_ne_ok
  · split at h
    · obtain ⟨n, hn, h⟩ := bind_eq_ok h
      have h2 := except_ok_inj h
      subst h2
      exact Or.inr ha0
    · split at h
      · obtain ⟨ss, hss, h⟩ := bind_eq_ok h
        obtain ⟨a, haa, h⟩ := bind_eq_ok h
        have h2 := except_ok_inj h
        subst h2
        exact Or.inl hm0
      · have h2 := except_ok_inj h
        subst h2
        exact Or.inl hm0

/-- `yamlThreadsafe` never changes the scaling, handlers or runtime
fields. -/
theorem yamlThreadsafe_preserves {y : YVal} {v0 v1 : Version}
    (h : yamlThreadsafe y v0 = .ok v1) :
    v1.manual_scaling = v0.manual_scaling ∧
      v1.automatic_scaling = v0.automatic_scaling ∧
      v1.handlers = v0.handlers ∧ v1.runtime = v0.runtime := by
  unfold yamlThreadsafe at h
  split at h
  · obtain ⟨ts, hts, h⟩ := bind_eq_ok h
    split at h
    · have h2 := except_ok_inj h
      subst h2
      exact ⟨rfl, rfl, rfl, rfl⟩
    · exact absurd h throw_ne_ok
  · have h2 := except_ok_inj h
    subst h2
    exact ⟨rfl, rfl, rfl, rfl⟩

/-- `xmlEnvStep` never changes the scaling or runtime fields. -/
theorem xmlEnvStep_scaling {root : XmlElem} {v0 v1 : Version}
    (h : xmlEnvStep root v0 = .ok v1) :
    v1.manual_scaling = v0.manual_scaling ∧
      v1.automatic_scaling = v0.automatic_scaling ∧ v1.runtime = v0.runtime := by
  unfold xmlEnvStep at h
  split at h
  · obtain ⟨env, he, h⟩ := bind_eq_ok h
    have h2 := except_ok_inj h
    subst h2
    exact ⟨rfl, rfl, rfl⟩
  · have h2 := except_ok_inj h
    subst h2
    exact ⟨rfl, rfl, rfl⟩

/-- After `xmlPrelude` both scaling fields are unset, and when the document
has no `runtime` element the stored runtime is the rewritten legacy default
`'java'`. -/
theorem xmlPrelude_ok {root : XmlElem} {v : Version} (h : xmlPrelude root = .ok v) :
    v.manual_scaling = none ∧ v.automatic_scaling = none ∧
      (root.find (qname "runtime") = none → v.runtime = YVal.str "java") := by
  unfold xmlPrelude at h
  obtain ⟨runtime_element, h1, h⟩ := bind_eq_ok h
  obtain ⟨runtime, h2, h⟩ := bind_eq_ok h
  obtain ⟨v1, h3, h⟩ := bind_eq_ok h
  obtain ⟨v2, h4, h⟩ := bind_eq_ok h
  obtain ⟨se, h5, h⟩ := bind_eq_ok h
  obtain ⟨me, h6, h⟩ := bind_eq_ok h
  split at h
  · exact absurd h throw_ne_ok
  · obtain ⟨v3, h7, h⟩ := bind_eq_ok h
    obtain ⟨v4, h8, h⟩ := bind_eq_ok h
    obtain ⟨v5, h9, h⟩ := bind_eq_ok h
    obtain ⟨v6, h10, h⟩ := bind_eq_ok h
    obtain ⟨v7, h11, h⟩ := bind_eq_ok h
    have efin := except_ok_inj h
    subst efin
    have e1 := except_ok_inj h1
    have e2 := except_ok_inj h2
    have e3 := except_ok_inj h3
    have e4 := except_ok_inj h4
    have e7 := except_ok_inj h7
    have e8 := except_ok_inj h8
    have e9 := except_ok_inj h9
    have e11 := except_ok_inj h11
    have p6 := xmlEnvStep_scaling h10
    have m1 : v1.manual_scaling = none := by rw [← e3]; rfl
    have m2 : v2.manual_scaling = none := by rw [← e4]; split <;> simpa using m1
    have m3 : v3.manual_scaling = none := by rw [← e7]; split <;> simpa using m2
    have m4 : v4.manual_scaling = none := by rw [← e8]; split <;> simpa using m3
    have m5 : v5.manual_scaling = none := by rw [← e9]; split <;> simpa using m4
    have m6 : v6.manual_scaling = none := by rw [p6.1]; exact m5
    have m7 : v7.manual_scaling = none := by rw [← e11]; split <;> simpa using m6
    have a1 : v1.automatic_scaling = none := by rw [← e3]; rfl
    have a2 : v2.automatic_scaling = none := by rw [← e4]; split <;> simpa using a1
    have a3 : v3.automatic_scaling = none := by rw [← e7]; split <;> simpa using a2
    have a4 : v4.automatic_scaling = none := by rw [← e8]; split <;> simpa using a3
    have a5 : v5.automatic_scaling = none := by rw [← e9]; split <;> simpa using a4
    have a6 : v6.automatic_scaling = none := by rw [p6.2.1]; exact a5
    have a7 : v7.automatic_scaling = none := by rw [← e11]; split <;> simpa using a6
    refine ⟨m7, a7, ?_⟩
    intro hr
    rw [hr] at e1
    subst e1
    have r0 : runtime = YVal.str "java7" := by rw [← e2]
    subst r0
    have r1 : v1.runtime = YVal.str "java" := by rw [← e3]; rfl
    have r2 : v2.runtime = YVal.str "java" := by rw [← e4]; split <;> simpa using r1
    have r3 : v3.runtime = YVal.str "java" := by rw [← e7]; split <;> simpa using r2
    have r4 : v4.runtime = YVal.str "java" := by rw [← e8]; split <;> simpa using r3
    have r5 : v5.runtime = YVal.str "java" := by rw [← e9]; split <;> simpa using r4
    have r6 : v6.runtime = YVal.str "java" := by rw [p6.2.2]; exact r5
    rw [← e11]
    split <;> simpa using r6

/-- `int(findtext(...))` can only fail with a built-in error. -/
theorem pyIntOfTextOpt_no_CE {t : Option String} {e : PyExc}
    (h : pyIntOfTextOpt t = .error e) : ∀ s, e ≠ PyExc.appEngineConfig s := by
  intro s hs
  subst hs
  cases t <;> simp [pyIntOfTextOpt] at h
  case some s2 =>
    rcases hp : pyIntOfString s2 with _ | n <;> rw [hp] at h <;> simp at h

/-- The required automatic-scaling pair on the XML path can only fail with a
built-in error. -/
theorem xmlAutoPair_no_CE {asc : XmlElem} {e : PyExc}
    (h : (do
        let mn ← pyIntOfTextOpt (asc.findtext (qname "min-instances"))
        let mx ← pyIntOfTextOpt (asc.findtext (qname "max-instances"))
        pure { minInstances := mn, maxInstances := mx : StandardSchedulerSettings }) = .error e) :
    ∀ s, e ≠ PyExc.appEngineConfig s := by
  rcases bind_eq_error h with h1 | ⟨x1, hx1, h⟩
  · exact pyIntOfTextOpt_no_CE h1
  rcases bind_eq_error h with h1 | ⟨x2, hx2, h⟩
  · exact pyIntOfTextOpt_no_CE h1
  exact Except.noConfusion h

/-- `xmlScaling` never changes the runtime or threadsafe fields, and starting
from a version with both scaling fields unset it sets at most one of them. -/
theorem xmlScaling_ok {root : XmlElem} {v0 v1 : Version}
    (h : xmlScaling root v0 = .ok v1) :
    v1.runtime = v0.runtime ∧ v1.threadsafe = v0.threadsafe ∧
      (v0.manual_scaling = none → v0.automatic_scaling = none →
        v1.manual_scaling = none ∨ v1.automatic_scaling = none) := by
  unfold xmlScaling at h
  obtain ⟨ae, hae, h⟩ := bind_eq_ok h
  obtain ⟨me, hme, h⟩ := bind_eq_ok h
  split at h
  · exact absurd h throw_ne_ok
  · split at h
    · obtain ⟨n, hn, h⟩ := bind_eq_ok h
      have h2 := except_ok_inj h
      subst h2
      exact ⟨rfl, rfl, fun _ ha0 => Or.inr ha0⟩
    · split at h
      · obtain ⟨ss, hss, h⟩ := bind_eq_ok h
        have h2 := except_ok_inj h
        subst h2
        exact ⟨rfl, rfl, fun hm0 _ => Or.inl hm0⟩
      · have h2 := except_ok_inj h
        subst h2
        exact ⟨rfl, rfl, fun hm0 _ => Or.inl hm0⟩

/-- `xmlMinIdleStep` succeeds only when the element was absent, leaving the
version unchanged (`int()` on an Element object always raises). -/
theorem xmlMinIdleStep_ok {mi : Option XmlElem} {v0 v1 : Version}
    (h : xmlMinIdleStep mi v0 = .ok v1) : v1 = v0 := by
  unfold xmlMinIdleStep at h
  split at h
  · obtain ⟨n, hn, h⟩ := bind_eq_ok h
    exact absurd hn (by simp [pyIntOfElement])
  · exact (except_ok_inj h).symm

/-- `xmlMaxIdleStep` succeeds only when the element was absent. -/
theorem xmlMaxIdleStep_ok {mi : Option XmlElem} {v0 v1 : Version}
    (h : xmlMaxIdleStep mi v0 = .ok v1) : v1 = v0 := by
  unfold xmlMaxIdleStep at h
  split at h
  · obtain ⟨n, hn, h⟩ := bind_eq_ok h
    exact absurd hn (by simp [pyIntOfElement])
  · exact (except_ok_inj h).symm

/-- When the optional-elements block of `from_xml` succeeds it leaves the
version untouched: every branch that found one of the three elements raises. -/
theorem xmlScalingOptional_ok {root : XmlElem} {v0 v1 : Version}
    (h : xmlScalingOptional root v0 = .ok v1) : v1 = v0 := by
  unfold xmlScalingOptional at h
  have h := catchValueError_ok h
  obtain ⟨mi, hmi, h⟩ := bind_eq_ok h
  obtain ⟨va, hva, h⟩ := bind_eq_ok h
  obtain ⟨mx, hmx, h⟩ := bind_eq_ok h
  obtain ⟨vb, hvb, h⟩ := bind_eq_ok h
  obtain ⟨mc, hmc, h⟩ := bind_eq_ok h
  have ea := xmlMinIdleStep_ok hva
  have eb := xmlMaxIdleStep_ok hvb
  split at h
  · obtain ⟨n, hn, h⟩ := bind_eq_ok h
    exact absurd hn (by simp [pyIntOfOptElement])
  · have h2 := except_ok_inj h
    subst h2
    rw [eb, ea]

/-- `xmlThreadsafe` never changes the scaling or runtime fields. -/
theorem xmlThreadsafe_preserves {root : XmlElem} {v0 v1 : Version}
    (h : xmlThreadsafe root v0 = .ok v1) :
    v1.manual_scaling = v0.manual_scaling ∧
      v1.automatic_scaling = v0.automatic_scaling ∧ v1.runtime = v0.runtime := by
  unfold xmlThreadsafe at h
  obtain ⟨te, hte, h⟩ := bind_eq_ok h
  obtain ⟨t, ht, h⟩ := bind_eq_ok h
  split at h
  · have h2 := except_ok_inj h
    subst h2
    exact ⟨rfl, rfl, rfl⟩
  · exact absurd h throw_ne_ok

/-- `shallowestPick` always yields a candidate. -/
theorem shallowestPick_ne_none (acc : Option String) (n : String) :
    shallowestPick acc n ≠ none := by
  cases acc with
  | none => simp [shallowestPick]
  | some b =>
    simp only [shallowestPick]
    split <;> simp

/-- A `shallowestPick` result is the new candidate or the previous best. -/
theorem shallowestPick_cases {acc : Option String} {n r : String}
    (h : shallowestPick acc n = some r) : r = n ∨ acc = some r := by
  cases acc with
  | none =>
    simp only [shallowestPick] at h
    injection h with h
    exact Or.inl h.symm
  | some b =>
    simp only [shallowestPick] at h
    split at h
    · injection h with h
      exact Or.inl h.symm
    · exact Or.inr h

/-- A fold of `shallowestPick` never loses every candidate: a `none` result
means there was no accumulator and no elements. -/
theorem foldl_shallowestPick_none {l : List String} {acc : Option String}
    (h : l.foldl shallowestPick acc = none) : acc = none ∧ l = [] := by
  induction l generalizing acc with
  | nil => exact ⟨h, rfl⟩
  | cons n rest ih =>
    have h2 := ih h
    exact absurd h2.1 (shallowestPick_ne_none acc n)

/-- A fold of `shallowestPick` only ever returns the accumulator or one of
the elements. -/
theorem foldl_shallowestPick_mem {l : List String} {acc : Option String}
    {r : String} (h : l.foldl shallowestPick acc = some r) :
    acc = some r ∨ r ∈ l := by
  induction l generalizing acc with
  | nil => exact Or.inl h
  | cons n rest ih =>
    rcases ih h with h2 | h2
    · rcases shallowestPick_cases h2 with h3 | h3
      · exact Or.inr (h3 ▸ List.mem_cons_self n rest)
      · exact Or.inl h3
    · exact Or.inr (List.mem_cons_of_mem n h2)

/-- The locator returns `none` exactly when no candidate's final segment is
the target file name. -/
theorem spfl_none_iff {f : String} {ns : List String} :
    shortest_path_from_list f ns = none ↔ ∀ n ∈ ns, nameMatches f n = false := by
  constructor
  · intro h
    have h2 := (foldl_shallowestPick_none h).2
    intro n hn
    by_contra hc
    have hmem : n ∈ ns.filter (nameMatches f) :=
      List.mem_filter.mpr ⟨hn, by revert hc; cases nameMatches f n <;> simp⟩
    rw [h2] at hmem
    exact absurd hmem (List.not_mem_nil n)
  · intro h
    unfold shortest_path_from_list
    have : ns.filter (nameMatches f) = [] := by
      rw [List.filter_eq_nil_iff]
      intro a ha
      rw [h a ha]
      simp
    rw [this]
    rfl

/-- A successful locate returns one of the candidates, and its final segment
is the target file name. -/
theorem spfl_some_matches {f : String} {ns : List String} {l : String}
    (h : shortest_path_from_list f ns = some l) :
    l ∈ ns ∧ nameMatches f l = true := by
  unfold shortest_path_from_list at h
  rcases foldl_shallowestPick_mem h with h2 | h2
  · exact Option.noConfusion h2
  · have := List.mem_filter.mp h2
    exact ⟨this.1, this.2⟩

/-- Rewriting lemma: a successful first action feeds its value to the
continuation. -/
theorem ok_bind {α β : Type} (a : α) (f : α → Except PyExc β) :
    (Except.ok a >>= f : Except PyExc β) = f a := rfl

/-- Rewriting lemma: a failed first action short-circuits the bind. -/
theorem error_bind {α β : Type} (e : PyExc) (f : α → Except PyExc β) :
    (Except.error e >>= f : Except PyExc β) = Except.error e := rfl

/-- Rewriting lemma: binding a `pure` value is application. -/
theorem pure_bind_py {α β : Type} (a : α) (f : α → Except PyExc β) :
    ((pure a : Except PyExc α) >>= f) = f a := rfl

/-- A minimal key/value document: `runtime: go`, `handlers: []`. -/
def yamlDocMinimal : YVal := .dict [("runtime", .str "go"), ("handlers", .list [])]

/-- The version produced for `yamlDocMinimal`. -/
def yamlVersionMinimal : Version :=
  { runtime := .str "go", config_type := "app.yaml",
    service_id := .str "default", handlers := some [] }

/-- A minimal namespaced XML document: only a `threadsafe` element with text
`'true'`. -/
def xmlDocMinimal : XmlElem :=
  .mk "appengine-web-app" [] [.mk (qname "threadsafe") [] [] (some "true")] none

/-- The version produced for `xmlDocMinimal`. -/
def xmlVersionMinimal : Version :=
  { runtime := .str "java", config_type := "appengine-web.xml",
    service_id := .str "default", threadsafe := some true }

/-- An appengine-web.xml document whose only child is a namespaced
`min-idle-instances` element with text `'5'`. -/
def xmlDocMinIdle : XmlElem :=
  .mk "appengine-web-app" [] [.mk (qname "min-idle-instances") [] [] (some "5")] none

/-- C1: the claim states that every failure of an entry point surfaces as the
single typed error (`AppEngineConfigException`).  The code violates this: on
a document carrying a `min-idle-instances` element, `from_xml` evaluates
`int(min_idle)` on the Element object (line 207), which raises `TypeError`,
and the surrounding `except ValueError` clause (line 215) does not catch it,
so a bare `TypeError` escapes to the caller. -/
theorem c1_typeerror_escapes_from_xml :
    fromXml xmlDocMinIdle = Except.error PyExc.typeError := rfl

/-- The document of `xmlDocMinIdle` extended with a well-formed
`automatic-scaling` element and a `threadsafe` element, so that everything
the claim needs is present and valid. -/
def xmlDocAutoMinIdle : XmlElem :=
  .mk "appengine-web-app" []
    [ .mk (qname "automatic-scaling") []
        [ .mk (qname "min-instances") [] [] (some "1"),
          .mk (qname "max-instances") [] [] (some "2") ] none,
      .mk (qname "min-idle-instances") [] [] (some "5"),
      .mk (qname "threadsafe") [] [] (some "true") ] none

/-- A document with valid automatic scaling and a top-level
`max-concurrent-requests` element (and no idle elements). -/
def xmlDocAutoMaxConcurrent : XmlElem :=
  .mk "appengine-web-app" []
    [ .mk (qname "automatic-scaling") []
        [ .mk (qname "min-instances") [] [] (some "1"),
          .mk (qname "max-instances") [] [] (some "2") ] none,
      .mk (qname "max-concurrent-requests") [] [] (some "7"),
      .mk (qname "threadsafe") [] [] (some "true") ] none

/-- The version produced for `xmlDocAutoMaxConcurrent`. -/
def xmlVersionAutoMaxConcurrent : Version :=
  { runtime := .str "java", config_type := "appengine-web.xml",
    service_id := .str "default", threadsafe := some true,
    automatic_scaling := some
      { standardSchedulerSettings := { minInstances := 1, maxInstances := 2 } } }

/-- C2: the claim states the optional `min-idle-instances` /
`max-idle-instances` / `max-concurrent-requests` elements are coerced to
integers and recorded under `automaticScaling`.  The code never does:
`int()` is applied to the Element object itself (lines 207, 210), raising an
uncaught `TypeError` whenever an idle element is present, and the
`max-concurrent-requests` assignment is guarded by `max_idle is not None`
(line 212), so a document with only that element has the value silently
dropped (its `maxConcurrentRequests` stays unset). -/
theorem c2_optional_scaling_fields_broken :
    fromXml xmlDocAutoMinIdle = Except.error PyExc.typeError ∧
      fromXml xmlDocAutoMaxConcurrent = Except.ok xmlVersionAutoMaxConcurrent ∧
      xmlVersionAutoMaxConcurrent.automatic_scaling = some
        { standardSchedulerSettings := { minInstances := 1, maxInstances := 2 },
          minIdleInstances := none, maxIdleInstances := none,
          maxConcurrentRequests := none } :=
  ⟨rfl, rfl, rfl⟩

/-- C3: on every successfully returned version, from either translator,
`manualScaling` and `automaticScaling` are never both set. -/
theorem c3_scaling_never_both (y : YVal) (root : XmlElem) (v w : Version)
    (hy : fromYaml y = Except.ok v) (hx : fromXml root = Except.ok w) :
    (v.manual_scaling = none ∨ v.automatic_scaling = none) ∧
      (w.manual_scaling = none ∨ w.automatic_scaling = none) := by
  constructor
  · unfold fromYaml at hy
    obtain ⟨v0, hp, hy⟩ := bind_eq_ok hy
    obtain ⟨v1, hsc, hy⟩ := bind_eq_ok hy
    have p0 := yamlPrelude_ok hp
    have ex := yamlScaling_exclusive p0.1 p0.2.1 hsc
    have pr := yamlThreadsafe_preserves hy
    rcases ex with e | e
    · exact Or.inl (pr.1.trans e)
    · exact Or.inr (pr.2.1.trans e)
  · unfold fromXml at hx
    obtain ⟨vc, hc, hx⟩ := bind_eq_ok hx
    unfold fromXmlCore at hc
    obtain ⟨v0, hp, hc⟩ := bind_eq_ok hc
    obtain ⟨v1, hsc, hc⟩ := bind_eq_ok hc
    have p0 := xmlPrelude_ok hp
    have sc := xmlScaling_ok hsc
    have opt := xmlScalingOptional_ok hc
    have pr := xmlThreadsafe_preserves hx
    subst opt
    rcases sc.2.2 p0.1 p0.2.1 with e | e
    · exact Or.inl (pr.1.trans e)
    · exact Or.inr (pr.2.1.trans e)

/-- C3 witness: the theorem applied to two concrete documents that parse
successfully. -/
theorem c3_scaling_never_both_witness :
    (yamlVersionMinimal.manual_scaling = none ∨
        yamlVersionMinimal.automatic_scaling = none) ∧
      (xmlVersionMinimal.manual_scaling = none ∨
        xmlVersionMinimal.automatic_scaling = none) :=
  c3_scaling_never_both yamlDocMinimal xmlDocMinimal yamlVersionMinimal
    xmlVersionMinimal rfl rfl

/-- C9: a namespaced XML document with no `runtime` element parses (when the
rest is valid) to a version whose runtime is the legacy default `'java7'`
rewritten to its modern equivalent `'java'`. -/
theorem c9_xml_default_runtime (root : XmlElem) (v : Version)
    (hr : root.find (qname "runtime") = none)
    (h : fromXml root = Except.ok v) : v.runtime = YVal.str "java" := by
  unfold fromXml at h
  obtain ⟨vc, hc, h⟩ := bind_eq_ok h
  unfold fromXmlCore at hc
  obtain ⟨v0, hp, hc⟩ := bind_eq_ok hc
  obtain ⟨v1, hsc, hc⟩ := bind_eq_ok hc
  have p0 := xmlPrelude_ok hp
  have sc := xmlScaling_ok hsc
  have opt := xmlScalingOptional_ok hc
  have pr := xmlThreadsafe_preserves h
  rw [pr.2.2, opt, sc.1, p0.2.2 hr]

/-- C9 witness: the theorem applied to a concrete document without a
`runtime` element. -/
theorem c9_xml_default_runtime_witness :
    xmlVersionMinimal.runtime = YVal.str "java" ∧
      xmlDocMinimal.find (qname "runtime") = none :=
  ⟨c9_xml_default_runtime xmlDocMinimal xmlVersionMinimal rfl rfl, rfl⟩

/-- Propagating a prelude failure through `from_yaml`. -/
theorem fromYaml_prelude_error {y : YVal} {e : PyExc}
    (h : yamlPrelude y = .error e) : fromYaml y = .error e := by
  unfold fromYaml
  rw [h]
  rfl

/-- C4 counterexample: the claim asserts every version returned by
`from_yaml` has a non-empty handlers sequence, but a document with
`handlers: []` parses successfully with an empty handlers list (the code only
requires the key to be present, never that the sequence be non-empty). -/
theorem c4_counterexample_empty_handlers :
    fromYaml yamlDocMinimal = Except.ok yamlVersionMinimal ∧
      yamlVersionMinimal.handlers = some [] :=
  ⟨rfl, rfl⟩

/-- C4 (amended): `from_yaml` fails with a MissingField error when the
`handlers` key is absent (naming `handlers`, or `runtime` when that is also
missing), and every successfully returned version has its handlers field set
(to a possibly empty sequence). -/
theorem c4_handlers_required_and_set :
    (∀ d : List (String × YVal), d.find? (fun p => p.1 == "handlers") = none →
      ∃ f, fromYaml (.dict d) =
        .error (.appEngineConfig ("Missing app.yaml element: " ++ f))) ∧
    (∀ (y : YVal) (v : Version), fromYaml y = Except.ok v → v.handlers ≠ none) := by
  constructor
  · intro d hd
    cases hr : d.find? (fun p => p.1 == "runtime") with
    | none =>
      refine ⟨"runtime", fromYaml_prelude_error ?_⟩
      unfold yamlPrelude
      have hsub : YVal.subscript (.dict d) "runtime" = .error .keyError := by
        show (match d.find? (fun p => p.1 == "runtime") with
          | some p => Except.ok p.2
          | none => Except.error PyExc.keyError) = Except.error PyExc.keyError
        rw [hr]
      rw [hsub]
      rfl
    | some p =>
      refine ⟨"handlers", fromYaml_prelude_error ?_⟩
      unfold yamlPrelude
      have hsub1 : YVal.subscript (.dict d) "runtime" = .ok p.2 := by
        show (match d.find? (fun p => p.1 == "runtime") with
          | some p => Except.ok p.2
          | none => Except.error PyExc.keyError) = Except.ok p.2
        rw [hr]
      have hsub2 : YVal.subscript (.dict d) "handlers" = .error .keyError := by
        show (match d.find? (fun p => p.1 == "handlers") with
          | some p => Except.ok p.2
          | none => Except.error PyExc.keyError) = Except.error PyExc.keyError
        rw [hd]
      rw [hsub1, hsub2]
      rfl
  · intro y v h
    unfold fromYaml at h
    obtain ⟨v0, hp, h⟩ := bind_eq_ok h
    obtain ⟨v1, hsc, h⟩ := bind_eq_ok h
    have p0 := yamlPrelude_ok hp
    have sc := yamlScaling_preserves hsc
    have pr := yamlThreadsafe_preserves h
    rw [pr.2.2.1, sc.2.2]
    exact p0.2.2

/-- C4 witness: the amended theorem applied at a document missing `handlers`
and at a successfully parsed document. -/
theorem c4_handlers_required_and_set_witness :
    (∃ f, fromYaml (.dict [("runtime", YVal.str "go")]) =
        .error (.appEngineConfig ("Missing app.yaml element: " ++ f))) ∧
      yamlVersionMinimal.handlers ≠ none :=
  ⟨c4_handlers_required_and_set.1 [("runtime", YVal.str "go")] rfl,
    c4_handlers_required_and_set.2 yamlDocMinimal yamlVersionMinimal rfl⟩

/-- A key/value document defining both scaling keys, with `manual_scaling`
bound to an empty (hence falsy) mapping. -/
def yamlDocBothFalsyManual : YVal :=
  .dict [("runtime", .str "go"), ("handlers", .list []),
    ("manual_scaling", .dict []),
    ("automatic_scaling", .dict [("min_instances", .int 1), ("max_instances", .int 2)])]

/-- The version produced for `yamlDocBothFalsyManual`. -/
def yamlVersionBothFalsyManual : Version :=
  { runtime := .str "go", config_type := "app.yaml",
    service_id := .str "default", handlers := some [],
    automatic_scaling := some
      { standardSchedulerSettings := { minInstances := 1, maxInstances := 2 } } }

/-- C5 counterexample: the claim asserts that any document defining both
scaling blocks fails with ConflictingFields, but the key/value translator
tests truthiness, not presence (line 89): with `manual_scaling: {}` both keys
are defined and parsing nonetheless succeeds, taking the automatic branch. -/
theorem c5_counterexample_falsy_manual :
    (yamlDocBothFalsyManual.subscript "manual_scaling" = .ok (.dict [])) ∧
      (yamlDocBothFalsyManual.subscript "automatic_scaling" =
        .ok (.dict [("min_instances", .int 1), ("max_instances", .int 2)])) ∧
      fromYaml yamlDocBothFalsyManual = Except.ok yamlVersionBothFalsyManual :=
  ⟨rfl, rfl, rfl⟩

/-- C5 (amended): a document whose two scaling blocks are both present with
truthy values (key/value format) or both present as elements (XML format),
and which passes the validation steps preceding the scaling check, fails
with the ConflictingFields error. -/
theorem c5_conflicting_scaling :
    (∀ (y : YVal) (v0 : Version) (a m : YVal),
      yamlPrelude y = .ok v0 →
      y.pyGet "automatic_scaling" YVal.null = .ok a → a.truthy = true →
      y.pyGet "manual_scaling" YVal.null = .ok m → m.truthy = true →
      fromYaml y = .error (.appEngineConfig
        "Invalid app.yaml: If \"automatic_scaling\" is defined, \"manual_scaling\" cannot be defined.")) ∧
    (∀ (root : XmlElem) (v0 : Version),
      xmlPrelude root = .ok v0 →
      (root.find (qname "automatic-scaling")).isSome = true →
      (root.find (qname "manual-scaling")).isSome = true →
      fromXml root = .error (.appEngineConfig
        "Invalid appengine-web.xml: If \"automatic-scaling\" is defined, \"manual-scaling\" cannot be defined.")) := by
  constructor
  · intro y v0 a m hp hga ha2 hgm hm2
    have hs : yamlScaling y v0 = .error (.appEngineConfig
        "Invalid app.yaml: If \"automatic_scaling\" is defined, \"manual_scaling\" cannot be defined.") := by
      unfold yamlScaling
      simp only [hga, ok_bind, hgm]
      rw [ha2, hm2]
      rfl
    unfold fromYaml
    simp only [hp, ok_bind, hs, error_bind]
  · intro root v0 hp hfa hfm
    have hs : xmlScaling root v0 = .error (.appEngineConfig
        "Invalid appengine-web.xml: If \"automatic-scaling\" is defined, \"manual-scaling\" cannot be defined.") := by
      unfold xmlScaling
      simp only [pure_bind_py]
      rw [hfa, hfm]
      rfl
    have hcore : fromXmlCore root = .error (.appEngineConfig
        "Invalid appengine-web.xml: If \"automatic-scaling\" is defined, \"manual-scaling\" cannot be defined.") := by
      unfold fromXmlCore
      simp only [hp, ok_bind, hs, error_bind]
    unfold fromXml
    simp only [hcore, error_bind]

/-- A key/value document with both scaling keys truthy. -/
def yamlDocBothTruthy : YVal :=
  .dict [("runtime", .str "go"), ("handlers", .list []),
    ("manual_scaling", .dict [("instances", .int 1)]),
    ("automatic_scaling", .dict [("min_instances", .int 1), ("max_instances", .int 2)])]

/-- An XML document with both scaling elements present. -/
def xmlDocBothScaling : XmlElem :=
  .mk "appengine-web-app" []
    [ .mk (qname "automatic-scaling") []
        [ .mk (qname "min-instances") [] [] (some "1"),
          .mk (qname "max-instances") [] [] (some "2") ] none,
      .mk (qname "manual-scaling") []
        [ .mk (qname "instances") [] [] (some "3") ] none,
      .mk (qname "threadsafe") [] [] (some "true") ] none

/-- The version `xmlPrelude` produces for documents with no service, env or
inbound configuration. -/
def xmlVersionPrelude : Version :=
  { runtime := .str "java", config_type := "appengine-web.xml",
    service_id := .str "default" }

/-- C5 witness: the amended theorem applied at concrete conflicting documents
of both formats. -/
theorem c5_conflicting_scaling_witness :
    fromYaml yamlDocBothTruthy = .error (.appEngineConfig
      "Invalid app.yaml: If \"automatic_scaling\" is defined, \"manual_scaling\" cannot be defined.") ∧
    fromXml xmlDocBothScaling = .error (.appEngineConfig
      "Invalid appengine-web.xml: If \"automatic-scaling\" is defined, \"manual-scaling\" cannot be defined.") :=
  ⟨c5_conflicting_scaling.1 yamlDocBothTruthy yamlVersionMinimal
      (.dict [("min_instances", .int 1), ("max_instances", .int 2)])
      (.dict [("instances", .int 1)]) rfl rfl rfl rfl rfl,
    c5_conflicting_scaling.2 xmlDocBothScaling xmlVersionPrelude rfl rfl rfl⟩

/-- A key/value document whose manual scaling block carries a negative
instances value. -/
def yamlDocNegManual : YVal :=
  .dict [("runtime", .str "go"), ("handlers", .list []),
    ("manual_scaling", .dict [("instances", .int (-1))])]

/-- The version produced for `yamlDocNegManual`. -/
def yamlVersionNegManual : Version :=
  { runtime := .str "go", config_type := "app.yaml",
    service_id := .str "default", handlers := some [],
    manual_scaling := some { instances := -1 } }

/-- C6 counterexample: the claim asserts the returned
`manualScaling.instances` is a non-negative integer, but the code performs a
bare `int()` coercion with no sign check: `instances: -1` parses successfully
and is returned as `-1`. -/
theorem c6_counterexample_negative_instances :
    fromYaml yamlDocNegManual = Except.ok yamlVersionNegManual ∧
      yamlVersionNegManual.manual_scaling = some { instances := -1 } ∧
      (-1 : Int) < 0 :=
  ⟨rfl, rfl, by decide⟩

/-- C6 (amended): for a document defining only the manual-scaling block (and
passing the preceding validation steps), the instances value is coerced with
`int()` to an integer — possibly negative — and stored as
`manualScaling.instances`; when the value is absent or not coercible the
translator fails with the InvalidConfig manual-scaling message. -/
theorem c6_manual_scaling_coercion :
    (∀ (y : YVal) (v0 : Version) (a m : YVal) (n : Int),
      yamlPrelude y = .ok v0 →
      y.pyGet "automatic_scaling" YVal.null = .ok a → a.truthy = false →
      y.pyGet "manual_scaling" YVal.null = .ok m → m.truthy = true →
      manualScalingY m = .ok n →
      ∀ v, fromYaml y = Except.ok v → v.manual_scaling = some { instances := n }) ∧
    (∀ (y : YVal) (v0 : Version) (a m : YVal) (e : PyExc),
      yamlPrelude y = .ok v0 →
      y.pyGet "automatic_scaling" YVal.null = .ok a → a.truthy = false →
      y.pyGet "manual_scaling" YVal.null = .ok m → m.truthy = true →
      manualScalingY m = .error e →
      fromYaml y = .error (.appEngineConfig "Invalid app.yaml: manual_scaling invalid.")) ∧
    (∀ (root : XmlElem) (v0 : Version) (ms : XmlElem) (n : Int),
      xmlPrelude root = .ok v0 →
      root.find (qname "automatic-scaling") = none →
      root.find (qname "manual-scaling") = some ms →
      pyIntOfTextOpt (ms.findtext (qname "instances")) = .ok n →
      ∀ v, fromXml root = Except.ok v → v.manual_scaling = some { instances := n }) ∧
    (∀ (root : XmlElem) (v0 : Version) (ms : XmlElem) (e : PyExc),
      xmlPrelude root = .ok v0 →
      root.find (qname "automatic-scaling") = none →
      root.find (qname "manual-scaling") = some ms →
      pyIntOfTextOpt (ms.findtext (qname "instances")) = .error e →
      fromXml root = .error (.appEngineConfig "Invalid app.yaml: manual_scaling invalid.")) := by
  refine ⟨?_, ?_, ?_, ?_⟩
  · intro y v0 a m n hp hga ha2 hgm hm2 hms v h
    unfold fromYaml at h
    obtain ⟨v0', hp', h⟩ := bind_eq_ok h
    have hv0 := except_ok_inj (hp.symm.trans hp')
    subst hv0
    obtain ⟨v1, hsc, h⟩ := bind_eq_ok h
    have hs : yamlScaling y v0 = .ok { v0 with manual_scaling := some { instances := n } } := by
      unfold yamlScaling
      simp only [hga, ok_bind, hgm]
      rw [ha2, hm2, hms]
      rfl
    have hv1 := except_ok_inj (hs.symm.trans hsc)
    subst hv1
    have pr := yamlThreadsafe_preserves h
    rw [pr.1]
  · intro y v0 a m e hp hga ha2 hgm hm2 hms
    have herr := catchStandard_err "Invalid app.yaml: manual_scaling invalid."
      hms (manualScalingY_no_CE hms)
    have hs : yamlScaling y v0 =
        .error (.appEngineConfig "Invalid app.yaml: manual_scaling invalid.") := by
      unfold yamlScaling
      simp only [hga, ok_bind, hgm]
      rw [ha2, hm2, herr]
      rfl
    unfold fromYaml
    simp only [hp, ok_bind, hs, error_bind]
  · intro root v0 ms n hp hfa hfm hins v h
    unfold fromXml at h
    obtain ⟨vc, hcore, h⟩ := bind_eq_ok h
    unfold fromXmlCore at hcore
    obtain ⟨v0', hp', hcore⟩ := bind_eq_ok hcore
    have hv0 := except_ok_inj (hp.symm.trans hp')
    subst hv0
    obtain ⟨v1, hsc, hcore⟩ := bind_eq_ok hcore
    have hs0 : xmlScaling root v0 =
        (catchStandard (pyIntOfTextOpt (ms.findtext (qname "instances")))
            "Invalid app.yaml: manual_scaling invalid." >>=
          fun nn => pure { v0 with manual_scaling := some { instances := nn } }) := by
      unfold xmlScaling
      simp only [pure_bind_py]
      rw [hfa, hfm]
      rfl
    have hs : xmlScaling root v0 = .ok { v0 with manual_scaling := some { instances := n } } := by
      rw [hs0, hins]
      rfl
    have hv1 := except_ok_inj (hs.symm.trans hsc)
    subst hv1
    have opt := xmlScalingOptional_ok hcore
    subst opt
    have pr := xmlThreadsafe_preserves h
    rw [pr.1]
  · intro root v0 ms e hp hfa hfm hins
    have herr := catchStandard_err "Invalid app.yaml: manual_scaling invalid."
      hins (pyIntOfTextOpt_no_CE hins)
    have hs0 : xmlScaling root v0 =
        (catchStandard (pyIntOfTextOpt (ms.findtext (qname "instances")))
            "Invalid app.yaml: manual_scaling invalid." >>=
          fun nn => pure { v0 with manual_scaling := some { instances := nn } }) := by
      unfold xmlScaling
      simp only [pure_bind_py]
      rw [hfa, hfm]
      rfl
    have hs : xmlScaling root v0 =
        .error (.appEngineConfig "Invalid app.yaml: manual_scaling invalid.") := by
      rw [hs0, herr]
      rfl
    have hcore : fromXmlCore root =
        .error (.appEngineConfig "Invalid app.yaml: manual_scaling invalid.") := by
      unfold fromXmlCore
      simp only [hp, ok_bind, hs, error_bind]
    unfold fromXml
    simp only [hcore, error_bind]

/-- A key/value document whose manual scaling block has a non-coercible
instances value. -/
def yamlDocBadManual : YVal :=
  .dict [("runtime", .str "go"), ("handlers", .list []),
    ("manual_scaling", .dict [("instances", .str "x")])]

/-- An XML document with a manual-scaling element carrying `instances` text
`'3'` and a threadsafe element. -/
def xmlDocManual3 : XmlElem :=
  .mk "appengine-web-app" []
    [ .mk (qname "manual-scaling") []
        [ .mk (qname "instances") [] [] (some "3") ] none,
      .mk (qname "threadsafe") [] [] (some "true") ] none

/-- The version produced for `xmlDocManual3`. -/
def xmlVersionManual3 : Version :=
  { runtime := .str "java", config_type := "appengine-web.xml",
    service_id := .str "default", threadsafe := some true,
    manual_scaling := some { instances := 3 } }

/-- An XML document whose manual-scaling element has no `instances` child. -/
def xmlDocManualNoInstances : XmlElem :=
  .mk "appengine-web-app" []
    [ .mk (qname "manual-scaling") [] [] none ] none

/-- C6 witness: the amended theorem applied to concrete documents that
exercise all four parts. -/
theorem c6_manual_scaling_coercion_witness :
    yamlVersionNegManual.manual_scaling = some { instances := -1 } ∧
      fromYaml yamlDocBadManual =
        .error (.appEngineConfig "Invalid app.yaml: manual_scaling invalid.") ∧
      xmlVersionManual3.manual_scaling = some { instances := 3 } ∧
      fromXml xmlDocManualNoInstances =
        .error (.appEngineConfig "Invalid app.yaml: manual_scaling invalid.") :=
  ⟨c6_manual_scaling_coercion.1 yamlDocNegManual yamlVersionMinimal
      YVal.null (.dict [("instances", .int (-1))]) (-1) rfl rfl rfl rfl rfl rfl
      yamlVersionNegManual rfl,
    c6_manual_scaling_coercion.2.1 yamlDocBadManual yamlVersionMinimal
      YVal.null (.dict [("instances", .str "x")]) PyExc.valueError
      rfl rfl rfl rfl rfl rfl,
    c6_manual_scaling_coercion.2.2.1 xmlDocManual3 xmlVersionPrelude
      (.mk (qname "manual-scaling") [] [.mk (qname "instances") [] [] (some "3")] none) 3
      rfl rfl rfl rfl xmlVersionManual3 rfl,
    c6_manual_scaling_coercion.2.2.2 xmlDocManualNoInstances xmlVersionPrelude
      (.mk (qname "manual-scaling") [] [] none) PyExc.typeError rfl rfl rfl rfl⟩

/-- A key/value document with automatic scaling whose `min_instances` is
coercible and whose `max_instances` is the non-coercible string `"x"`. -/
def yamlDocAutoBadMax : YVal :=
  .dict [("runtime", .str "go"), ("handlers", .list []),
    ("automatic_scaling",
      .dict [("min_instances", .int 1), ("max_instances", .str "x")])]

/-- C7 counterexample: the claim says the InvalidConfig message names the
max-instances field; the code raises the block-level message
`'Invalid app.yaml: automatic_scaling invalid.'`, in which the string `max`
does not occur at all. -/
theorem c7_counterexample_message_names_block :
    fromYaml yamlDocAutoBadMax =
      .error (.appEngineConfig "Invalid app.yaml: automatic_scaling invalid.") ∧
    strOccurs "max" "Invalid app.yaml: automatic_scaling invalid." = false :=
  ⟨rfl, rfl⟩

/-- C7 (amended): for a key/value document (passing the preceding steps)
whose automatic-scaling block has a coercible `min_instances` and a present
but non-coercible `max_instances`, `from_yaml` fails with the InvalidConfig
error whose message names the `automatic_scaling` block as a whole, not the
max-instances field. -/
theorem c7_auto_max_not_coercible
    (y : YVal) (v0 : Version) (a m mn mxv : YVal) (n : Int) (e : PyExc)
    (hp : yamlPrelude y = .ok v0)
    (hga : y.pyGet "automatic_scaling" YVal.null = .ok a) (ha2 : a.truthy = true)
    (hgm : y.pyGet "manual_scaling" YVal.null = .ok m) (hm2 : m.truthy = false)
    (hmn : a.subscript "min_instances" = .ok mn) (hn : pyInt mn = .ok n)
    (hmx : a.subscript "max_instances" = .ok mxv) (hpy : pyInt mxv = .error e) :
    fromYaml y = .error (.appEngineConfig "Invalid app.yaml: automatic_scaling invalid.") := by
  have hreq : autoScalingRequiredY a = .error e := by
    unfold autoScalingRequiredY
    simp only [hmn, hn, hmx, hpy, ok_bind, error_bind]
  have herr := catchStandard_err "Invalid app.yaml: automatic_scaling invalid."
    hreq (autoScalingRequiredY_no_CE hreq)
  have hs : yamlScaling y v0 =
      .error (.appEngineConfig "Invalid app.yaml: automatic_scaling invalid.") := by
    unfold yamlScaling
    simp only [hga, ok_bind, hgm]
    rw [ha2, hm2, herr]
    rfl
  unfold fromYaml
  simp only [hp, ok_bind, hs, error_bind]

/-- C7 witness: the amended theorem applied to the concrete document
`{min_instances: 1, max_instances: "x"}`. -/
theorem c7_auto_max_not_coercible_witness :
    fromYaml yamlDocAutoBadMax =
      .error (.appEngineConfig "Invalid app.yaml: automatic_scaling invalid.") :=
  c7_auto_max_not_coercible yamlDocAutoBadMax yamlVersionMinimal
    (.dict [("min_instances", .int 1), ("max_instances", .str "x")]) YVal.null
    (.int 1) (.str "x") 1 PyExc.valueError rfl rfl rfl rfl rfl rfl rfl rfl rfl

/-- An XML document with no children at all (in particular no `threadsafe`
element). -/
def xmlDocNoThreadsafe : XmlElem := .mk "appengine-web-app" [] [] none

/-- C8 counterexample: the claim maps absence of the `threadsafe` element to
InvalidConfig and bad text to MissingField; on the code, absence produces the
error that reports a missing required element, which is the MissingField
variant of the spec's taxonomy (section 7), not InvalidConfig. -/
theorem c8_counterexample_absence_is_missing_field :
    fromXml xmlDocNoThreadsafe =
      .error (.appEngineConfig
        "Invalid appengine-web.xml: missing \"threadsafe\" element") ∧
    classify "Invalid appengine-web.xml: missing \"threadsafe\" element" =
      ErrorVariant.missingField ∧
    ErrorVariant.missingField ≠ ErrorVariant.invalidConfig :=
  ⟨rfl, rfl, by decide⟩

/-- C8 (amended): in `from_xml` the `threadsafe` element is mandatory
regardless of runtime; its text must case-insensitively equal `'true'` or
`'false'` and the returned threadsafe is the corresponding boolean; absence
of the element fails with the MissingField error and any other text with the
InvalidConfig error (the claim's mapping of the two variants is swapped). -/
theorem c8_xml_threadsafe_mandatory (root : XmlElem) (v0 : Version)
    (hc : fromXmlCore root = .ok v0) :
    (root.find (qname "threadsafe") = none →
      fromXml root = .error (.appEngineConfig
        "Invalid appengine-web.xml: missing \"threadsafe\" element") ∧
      classify "Invalid appengine-web.xml: missing \"threadsafe\" element" =
        ErrorVariant.missingField) ∧
    (∀ (e : XmlElem) (t : String), root.find (qname "threadsafe") = some e →
      e.text = some t → (pyLower t == "true" || pyLower t == "false") = false →
      fromXml root = .error (.appEngineConfig
        "Invalid appengine-web.xml: Invalid \"threadsafe\" value. It must be either \"true\" or \"false\".") ∧
      classify "Invalid appengine-web.xml: Invalid \"threadsafe\" value. It must be either \"true\" or \"false\"." =
        ErrorVariant.invalidConfig) ∧
    (∀ (e : XmlElem) (t : String), root.find (qname "threadsafe") = some e →
      e.text = some t → (pyLower t == "true" || pyLower t == "false") = true →
      fromXml root = Except.ok { v0 with threadsafe := some (pyLower t == "true") }) := by
  refine ⟨?_, ?_, ?_⟩
  · intro hf
    refine ⟨?_, rfl⟩
    unfold fromXml
    simp only [hc, ok_bind]
    unfold xmlThreadsafe xmlThreadsafeElement
    rw [hf]
    rfl
  · intro e t hf ht hb
    refine ⟨?_, rfl⟩
    have h1 : xmlThreadsafeElement root = pure e := by
      unfold xmlThreadsafeElement
      rw [hf]
    have h2 : xmlThreadsafeText e = pure (pyLower t) := by
      unfold xmlThreadsafeText
      rw [ht]
    unfold fromXml
    simp only [hc, ok_bind]
    unfold xmlThreadsafe
    simp only [h1, pure_bind_py, h2]
    rw [hb]
    rfl
  · intro e t hf ht hb
    have h1 : xmlThreadsafeElement root = pure e := by
      unfold xmlThreadsafeElement
      rw [hf]
    have h2 : xmlThreadsafeText e = pure (pyLower t) := by
      unfold xmlThreadsafeText
      rw [ht]
    unfold fromXml
    simp only [hc, ok_bind]
    unfold xmlThreadsafe
    simp only [h1, pure_bind_py, h2]
    rw [hb]
    rfl

/-- An XML document whose `threadsafe` element carries the mixed-case text
`'True'`. -/
def xmlDocThreadsafeMixedCase : XmlElem :=
  .mk "appengine-web-app" [] [.mk (qname "threadsafe") [] [] (some "True")] none

/-- C8 witness: the amended theorem applied to a document whose `threadsafe`
text is the mixed-case `'True'`, which parses to the boolean `true`. -/
theorem c8_xml_threadsafe_mandatory_witness :
    fromXml xmlDocThreadsafeMixedCase =
      Except.ok { xmlVersionPrelude with threadsafe := some (pyLower "True" == "true") } :=
  (c8_xml_threadsafe_mandatory xmlDocThreadsafeMixedCase xmlVersionPrelude rfl).2.2
    (.mk (qname "threadsafe") [] [] (some "True")) "True" rfl rfl rfl

/-- C10: for both archive entry points, the member list is searched first for
`app.yaml` and only on no match for `appengine-web.xml`; the matched member's
bytes are dispatched to `from_contents` tagged with the matching file name;
when neither file name matches any member the call fails with the
ConfigNotFound error. -/
theorem c10_archive_search_and_dispatch (P : ExternalParsers)
    (members : List (String × String)) :
    ((∃ n ∈ members.map Prod.fst, nameMatches "app.yaml" n = true) →
      ∃ loc, shortest_path_from_list "app.yaml" (members.map Prod.fst) = some loc ∧
        nameMatches "app.yaml" loc = true ∧
        from_tar_gz P members = from_contents P (extractMember members loc) "app.yaml" ∧
        from_zip P members = from_contents P (extractMember members loc) "app.yaml") ∧
    ((∀ n ∈ members.map Prod.fst, nameMatches "app.yaml" n = false) →
      (∃ n ∈ members.map Prod.fst, nameMatches "appengine-web.xml" n = true) →
      ∃ loc, shortest_path_from_list "appengine-web.xml" (members.map Prod.fst) = some loc ∧
        nameMatches "appengine-web.xml" loc = true ∧
        from_tar_gz P members = from_contents P (extractMember members loc) "appengine-web.xml" ∧
        from_zip P members = from_contents P (extractMember members loc) "appengine-web.xml") ∧
    ((∀ n ∈ members.map Prod.fst, nameMatches "app.yaml" n = false) →
      (∀ n ∈ members.map Prod.fst, nameMatches "appengine-web.xml" n = false) →
      from_tar_gz P members =
        .error (.appEngineConfig "Unable to find app.yaml or appengine-web.xml") ∧
      from_zip P members =
        .error (.appEngineConfig "Unable to find app.yaml or appengine-web.xml") ∧
      classify "Unable to find app.yaml or appengine-web.xml" =
        ErrorVariant.configNotFound) := by
  refine ⟨?_, ?_, ?_⟩
  · rintro ⟨n, hn, hm⟩
    cases hs : shortest_path_from_list "app.yaml" (members.map Prod.fst) with
    | none =>
      have := spfl_none_iff.mp hs n hn
      rw [hm] at this
      exact absurd this (by simp)
    | some loc =>
      refine ⟨loc, rfl, (spfl_some_matches hs).2, ?_, ?_⟩
      · simp only [from_tar_gz, hs]
      · simp only [from_zip, hs]
  · rintro hno ⟨n, hn, hm⟩
    have hsA : shortest_path_from_list "app.yaml" (members.map Prod.fst) = none :=
      spfl_none_iff.mpr hno
    cases hs : shortest_path_from_list "appengine-web.xml" (members.map Prod.fst) with
    | none =>
      have := spfl_none_iff.mp hs n hn
      rw [hm] at this
      exact absurd this (by simp)
    | some loc =>
      refine ⟨loc, rfl, (spfl_some_matches hs).2, ?_, ?_⟩
      · simp only [from_tar_gz, hsA, hs]
      · simp only [from_zip, hsA, hs]
  · intro hnoA hnoX
    have hsA : shortest_path_from_list "app.yaml" (members.map Prod.fst) = none :=
      spfl_none_iff.mpr hnoA
    have hsX : shortest_path_from_list "appengine-web.xml" (members.map Prod.fst) = none :=
      spfl_none_iff.mpr hnoX
    refine ⟨?_, ?_, rfl⟩
    · simp only [from_tar_gz, hsA, hsX]
    · simp only [from_zip, hsA, hsX]

/-- Parsers that reject every content, used only to instantiate the archive
theorem at a concrete input. -/
def trivialParsers : ExternalParsers :=
  ⟨fun _ => .error "unparsed", fun _ => .error "unparsed"⟩

/-- A concrete archive member list holding `app.yaml` at two depths. -/
def archiveMembers : List (String × String) :=
  [("README.md", "r"), ("a/app.yaml", "y1"), ("app.yaml", "y2")]

/-- C10 witness: the theorem applied to a concrete member list that contains
`app.yaml`. -/
theorem c10_archive_search_and_dispatch_witness :
    ∃ loc, shortest_path_from_list "app.yaml" (archiveMembers.map Prod.fst) = some loc ∧
      nameMatches "app.yaml" loc = true ∧
      from_tar_gz trivialParsers archiveMembers =
        from_contents trivialParsers (extractMember archiveMembers loc) "app.yaml" ∧
      from_zip trivialParsers archiveMembers =
        from_contents trivialParsers (extractMember archiveMembers loc) "app.yaml" :=
  (c10_archive_search_and_dispatch trivialParsers archiveMembers).1
    ⟨"a/app.yaml", by simp [archiveMembers], rfl⟩
